import Mathlib

/-!
Verification of the Firebase App Distribution action (`src/index.js`).

Shallow embedding of the action's orchestration.  The action is a linear
pipeline: read inputs, parse the service-account credentials, obtain an
OAuth access token, resolve and check the artifact file, upload it, then
optionally distribute the release to groups and write a job summary.

External collaborators (the `@actions/core` host API, `JSON.parse`, the
`google-auth-library` token exchange, `fs.existsSync`, `path.resolve`,
and the two `axios` HTTP calls) are modelled as an environment `Env`
recording the outcome each collaborator would produce for this
invocation.  Every observable action of the code (log lines, secret
registration, output setting, failure signalling, network requests, the
file-existence check, the summary write) is emitted as an `Event`, so
properties about ordering ("before any network call") and about the
final outcome are properties of the event trace.
-/

namespace FirebaseDist

/-- A JavaScript `Error` value as the code observes it: a `message`
string and an optional `stack` string. -/
structure JsError where
  message : String
  stack : Option String
deriving Repr, DecidableEq

/-- The parsed service-account key.  The orchestration only ever reads
`project_id` from it (`src/index.js` line 42). -/
structure ServiceAccountKey where
  project_id : String
deriving Repr, DecidableEq

/-- The JSON body posted to the distribute endpoint
(`src/index.js` lines 209-214): `groupNames` and `releaseNotes.text`. -/
structure DistributeBody where
  groupNames : List String
  releaseNotesText : String
deriving Repr, DecidableEq

/-- Observable actions of one invocation, in program order. -/
inductive Event where
  /-- Logged via `core.info` (including group headers). -/
  | info (msg : String)
  /-- Logged via `core.debug`. -/
  | debug (msg : String)
  /-- Written via `core.error`: an error line in the log sink. -/
  | logError (msg : String)
  /-- Call to `core.setSecret`: registers a value for redaction in the log. -/
  | setSecret (value : String)
  /-- Call to `core.setOutput`. -/
  | setOutput (key value : String)
  /-- Call to `core.setFailed`: signals failure of the invocation. -/
  | setFailed (msg : String)
  /-- The authenticator's token exchange (`client.getAccessToken()`),
  a network call to the OAuth token endpoint. -/
  | netTokenExchange
  /-- The upload request `axios.post(uploadUrl, ...)`. -/
  | netUpload (url : String)
  /-- The distribute request `axios.post(distributionUrl, body, ...)`. -/
  | netDistribute (url : String) (body : DistributeBody)
  /-- The synchronous `fs.existsSync(filePath)` check and its result. -/
  | fileCheck (filePath : String) (found : Bool)
  /-- The job-summary write (`core.summary....write()`). -/
  | summaryWrite
deriving Repr, DecidableEq

/-- The action's inputs as `core.getInput` returns them: an input that
is absent is the empty string. -/
structure Inputs where
  serviceCredentialsFileContent : String
  appId : String
  file : String
  groups : String
  releaseNotes : String
deriving Repr, DecidableEq

/-- Outcomes the external collaborators produce for this invocation.
`tokenResult` is the result of the token exchange: an exception, or the
`.token` field of the response (`none` models JS `undefined`/`null`).
`uploadResult` on success carries the `name` field of the upload
response's JSON body. -/
structure Env where
  parseResult : Except JsError ServiceAccountKey
  tokenResult : Except JsError (Option String)
  resolvePath : String → String
  fileExists : String → Bool
  uploadResult : Except JsError String
  distributeResult : Except JsError Unit
  summaryResult : Except JsError Unit

/-- Split a character list at every occurrence of `sep`, keeping empty
segments, like JavaScript's `String.prototype.split` with a one-character
separator: `"".split(',') = [""]` and `"a,".split(',') = ["a", ""]`. -/
def splitOnChar (sep : Char) : List Char → List (List Char)
  | [] => [[]]
  | c :: cs =>
    if c = sep then [] :: splitOnChar sep cs
    else
      match splitOnChar sep cs with
      | [] => [[c]]
      | seg :: segs => (c :: seg) :: segs

/-- JavaScript's `groups.split(',')`. -/
def jsSplitComma (s : String) : List String :=
  (splitOnChar ',' s.data).map fun cs => String.mk cs

/-- The whitespace characters JavaScript's `String.prototype.trim`
strips (the ASCII ones; the exotic Unicode space classes never appear
in the strings this development evaluates). -/
def isJsWhitespace (c : Char) : Bool :=
  c = ' ' || c = '\t' || c = '\n' || c = '\r' || c = '\x0b' || c = '\x0c'

/-- JavaScript's `String.prototype.trim`: drop leading and trailing
whitespace. -/
def jsTrim (s : String) : String :=
  String.mk (((s.data.dropWhile isJsWhitespace).reverse.dropWhile isJsWhitespace).reverse)

/-- Models `path.basename`: the final `/`-separated component of a path. -/
def jsBasename (p : String) : String :=
  ((splitOnChar '/' p.data).map fun cs => String.mk cs).getLastD p

/-- Embeds `parseServiceAccountCredentials` (`src/index.js` lines 72-84):
`JSON.parse` the credentials; on failure log, set failed and rethrow. -/
def parseServiceAccountCredentials (env : Env) :
    Except JsError ServiceAccountKey × List Event :=
  let header := [Event.info "🔧 Parsing Service Account Credentials"]
  match env.parseResult with
  | .ok serviceAccountKey =>
      (.ok serviceAccountKey,
        header ++ [Event.info "✅ Service Account Key parsed successfully"])
  | .error parseError =>
      (.error parseError,
        header ++
          [Event.logError
            "❌ Failed to parse serviceCredentialsFileContent. Ensure it is valid JSON.",
           Event.setFailed
            "Failed to parse serviceCredentialsFileContent. Ensure it is valid JSON."])

/-- The `Error('Access token missing')` thrown at `src/index.js` line 105. -/
def accessTokenMissingError : JsError :=
  { message := "Access token missing", stack := some "Error: Access token missing" }

/-- Embeds `initializeGoogleAuthentication` (`src/index.js` lines 91-115):
perform the token exchange; an empty or missing token is an explicit
failure, and any exception is logged as an authentication failure and
rethrown. -/
def initializeGoogleAuthentication (env : Env) (_serviceAccountKey : ServiceAccountKey) :
    Except JsError String × List Event :=
  let header := [Event.info "🔑 Initializing Google Authentication",
                 Event.netTokenExchange]
  let missingEvents :=
    [Event.logError "❌ Failed to obtain access token.",
     Event.setFailed "Failed to obtain access token.",
     Event.logError "❌ Google Authentication failed.",
     Event.setFailed "Google Authentication failed."]
  match env.tokenResult with
  | .error authError =>
      (.error authError,
        header ++ [Event.logError "❌ Google Authentication failed.",
                   Event.setFailed "Google Authentication failed."])
  | .ok none => (.error accessTokenMissingError, header ++ missingEvents)
  | .ok (some accessToken) =>
      if accessToken = "" then
        (.error accessTokenMissingError, header ++ missingEvents)
      else
        (.ok accessToken,
          header ++ [Event.info "✅ Access Token obtained successfully"])

/-- The `Error('File not found')` thrown at `src/index.js` line 131. -/
def fileNotFoundError : JsError :=
  { message := "File not found", stack := some "Error: File not found" }

/-- Embeds `resolveAndVerifyFilePath` (`src/index.js` lines 122-141):
resolve the path, check existence synchronously once; when the file is
missing, throw, and the function's own catch logs the error again. -/
def resolveAndVerifyFilePath (env : Env) (file : String) :
    Except JsError String × List Event :=
  let filePath := env.resolvePath file
  let header := [Event.info "📂 Resolving and Verifying File Path",
                 Event.debug ("Resolved file path: " ++ filePath)]
  if env.fileExists filePath then
    (.ok filePath,
      header ++ [Event.fileCheck filePath true,
        Event.info ("✅ File \"" ++ filePath ++ "\" exists and is ready for distribution")])
  else
    (.error fileNotFoundError,
      header ++ [Event.fileCheck filePath false,
        Event.logError ("❌ File \"" ++ filePath ++ "\" not found."),
        Event.setFailed ("File \"" ++ filePath ++ "\" not found."),
        Event.logError "❌ Error resolving file path: File not found",
        Event.setFailed "Error resolving file path: File not found"])

/-- The upload URL template (`src/index.js` line 154). -/
def uploadUrl (projectId appId : String) : String :=
  "https://firebaseappdistribution.googleapis.com/upload/v1/projects/" ++ projectId ++
    "/apps/" ++ appId ++ "/releases:upload"

/-- Embeds `uploadFile` (`src/index.js` lines 151-189): post the file as
multipart form data; on success read `response.data.name`, set the
`releaseName` output and return the release id; on failure log, set
failed and rethrow.  (The `core.debug` of the raw response body is not
modelled; it carries no information the claims mention.) -/
def uploadFile (env : Env) (projectId appId filePath : String) (_accessToken : String) :
    Except JsError String × List Event :=
  let url := uploadUrl projectId appId
  let _fileName := jsBasename filePath
  let header := [Event.info "📤 Uploading the File to Firebase App Distribution",
                 Event.debug ("Upload URL: " ++ url),
                 Event.info "🔄 Initiating file upload...",
                 Event.netUpload url]
  match env.uploadResult with
  | .ok releaseId =>
      (.ok releaseId,
        header ++ [Event.info ("✅ Upload successful. Release ID: " ++ releaseId),
                   Event.setOutput "releaseName" releaseId])
  | .error uploadError =>
      (.error uploadError,
        header ++ [Event.logError ("❌ File upload failed: " ++ uploadError.message),
                   Event.setFailed ("File upload failed: " ++ uploadError.message)])

/-- The distribute URL template (`src/index.js` line 203). -/
def distributionUrl (projectId appId releaseId : String) : String :=
  "https://firebaseappdistribution.googleapis.com/v1/projects/" ++ projectId ++
    "/apps/" ++ appId ++ "/releases/" ++ releaseId ++ ":distribute"

/-- Embeds `distributeRelease` (`src/index.js` lines 200-226): post
`{ groupNames: groups.split(',').map(trim), releaseNotes: { text } }`
to the distribute endpoint; on failure log, set failed and rethrow. -/
def distributeRelease (env : Env)
    (projectId appId releaseId groups releaseNotes : String) (_accessToken : String) :
    Except JsError Unit × List Event :=
  let url := distributionUrl projectId appId releaseId
  let body : DistributeBody :=
    { groupNames := (jsSplitComma groups).map (fun group => jsTrim group),
      releaseNotesText := releaseNotes }
  let header := [Event.info "🔄 Distributing Release to Specified Groups",
                 Event.debug ("Distribution URL: " ++ url),
                 Event.info ("🔄 Distributing release to groups: " ++ groups),
                 Event.netDistribute url body]
  match env.distributeResult with
  | .ok _ =>
      (.ok (), header ++ [Event.info ("✅ Distributed successfully to groups: " ++ groups)])
  | .error distributionError =>
      (.error distributionError,
        header ++
          [Event.logError ("❌ Release distribution failed: " ++ distributionError.message),
           Event.setFailed ("Release distribution failed: " ++ distributionError.message)])

/-- Embeds `createJobSummary` (`src/index.js` lines 234-253): write the job
summary; on failure log, set failed and rethrow. -/
def createJobSummary (env : Env) (_appId _releaseId _groups : String) :
    Except JsError Unit × List Event :=
  let header := [Event.info "📝 Creating Job Summary", Event.summaryWrite]
  match env.summaryResult with
  | .ok _ => (.ok (), header ++ [Event.info "📝 Job summary created successfully."])
  | .error summaryError =>
      (.error summaryError,
        header ++
          [Event.logError ("❌ Failed to create job summary: " ++ summaryError.message),
           Event.setFailed ("Failed to create job summary: " ++ summaryError.message)])

/-- The error `core.getInput(name, { required: true })` throws when the
input is absent (the empty string). -/
def requiredInputError (name : String) : JsError :=
  { message := "Input required and not supplied: " ++ name,
    stack := some ("Error: Input required and not supplied: " ++ name) }

/-- The body of `run`'s `try` block (`src/index.js` lines 15-53):
read inputs (required ones throw when empty), default the release
notes, then parse → authenticate → resolve file → upload →
(distribute when `groups` is truthy) → job summary. -/
def runBody (inputs : Inputs) (env : Env) : Except JsError Unit × List Event :=
  let start := [Event.info "🛠️ Starting Firebase distribution"]
  if inputs.serviceCredentialsFileContent = "" then
    (.error (requiredInputError "serviceCredentialsFileContent"), start)
  else if inputs.appId = "" then
    (.error (requiredInputError "appId"), start)
  else if inputs.file = "" then
    (.error (requiredInputError "file"), start)
  else
    -- `core.getInput('releaseNotes') || 'Distributed via GitHub Actions'`
    let releaseNotes :=
      if inputs.releaseNotes = "" then "Distributed via GitHub Actions"
      else inputs.releaseNotes
    let t0 := start ++
      [Event.debug ("App ID: " ++ inputs.appId),
       Event.debug ("File to distribute: " ++ inputs.file),
       Event.debug ("Groups: " ++ inputs.groups)]
    let (keyR, t1) := parseServiceAccountCredentials env
    match keyR with
    | .error e => (.error e, t0 ++ t1)
    | .ok serviceAccountKey =>
      let (tokR, t2) := initializeGoogleAuthentication env serviceAccountKey
      match tokR with
      | .error e => (.error e, t0 ++ t1 ++ t2)
      | .ok accessToken =>
        let (pathR, t3) := resolveAndVerifyFilePath env inputs.file
        match pathR with
        | .error e => (.error e, t0 ++ t1 ++ t2 ++ t3)
        | .ok filePath =>
          let projectId := serviceAccountKey.project_id
          let (upR, t4) := uploadFile env projectId inputs.appId filePath accessToken
          match upR with
          | .error e => (.error e, t0 ++ t1 ++ t2 ++ t3 ++ t4)
          | .ok releaseId =>
            -- `if (groups)`: a string is truthy exactly when non-empty
            let (distR, t5) :=
              if inputs.groups = "" then (.ok (), ([] : List Event))
              else
                distributeRelease env projectId inputs.appId releaseId
                  inputs.groups releaseNotes accessToken
            match distR with
            | .error e => (.error e, t0 ++ t1 ++ t2 ++ t3 ++ t4 ++ t5)
            | .ok _ =>
              let (sumR, t6) := createJobSummary env inputs.appId releaseId inputs.groups
              match sumR with
              | .error e => (.error e, t0 ++ t1 ++ t2 ++ t3 ++ t4 ++ t5 ++ t6)
              | .ok _ =>
                (.ok (),
                  t0 ++ t1 ++ t2 ++ t3 ++ t4 ++ t5 ++ t6 ++
                    [Event.info "🎉 Firebase distribution completed successfully."])

/-- Embeds the `catch` block of `run` (`src/index.js` lines 54-64): register the
error's message and stack (when truthy) as secrets, then write the
error line and set the invocation failed. -/
def catchEvents (e : JsError) : List Event :=
  (if e.message = "" then [] else [Event.setSecret e.message]) ++
  (match e.stack with
   | some st => if st = "" then [] else [Event.setSecret st]
   | none => []) ++
  [Event.logError ("❌ Action failed with error: " ++ e.message),
   Event.setFailed ("Action failed with error: " ++ e.message)]

/-- Embeds `run` (`src/index.js` lines 14-65): the `try` body followed, on an
exception, by the `catch` block. -/
def run (inputs : Inputs) (env : Env) : List Event :=
  match runBody inputs env with
  | (.ok _, t) => t
  | (.error e, t) => t ++ catchEvents e

/-! Trace observations -/

/-- Network calls: the token exchange and the two HTTP requests. -/
def Event.isNetwork : Event → Bool
  | .netTokenExchange => true
  | .netUpload _ => true
  | .netDistribute _ _ => true
  | _ => false

/-- The upload HTTP request. -/
def Event.isUploadRequest : Event → Bool
  | .netUpload _ => true
  | _ => false

/-- The distribute HTTP request. -/
def Event.isDistributeRequest : Event → Bool
  | .netDistribute _ _ => true
  | _ => false

/-- The file-existence check. -/
def Event.isFileCheck : Event → Bool
  | .fileCheck _ _ => true
  | _ => false

/-- A `core.setFailed` call. -/
def Event.isSetFailed : Event → Bool
  | .setFailed _ => true
  | _ => false

/-- The `releaseName` output being set. -/
def Event.isReleaseNameOutput : Event → Bool
  | .setOutput k _ => k = "releaseName"
  | _ => false

/-- The job-summary write. -/
def Event.isSummaryWrite : Event → Bool
  | .summaryWrite => true
  | _ => false

/-- The invocation signalled failure: some step called `core.setFailed`. -/
def failed (t : List Event) : Bool := t.any Event.isSetFailed

/-- The value a `setOutput` event assigns to `key`, if any. -/
def outputProj (key : String) : Event → Option String
  | .setOutput k v => if k = key then some v else none
  | _ => none

/-- The final value of an output key over the trace. -/
def outputValue (t : List Event) (key : String) : Option String :=
  (t.filterMap (outputProj key)).getLast?

/-- Some network call happens strictly before the first file-existence
check (or a network call happens and the file is never checked). -/
def anyNetworkBeforeFileCheck (t : List Event) : Bool :=
  (t.takeWhile fun e => !e.isFileCheck).any Event.isNetwork

/-- Some upload or distribute request happens strictly before the first
file-existence check (or without any check at all). -/
def anyHttpBeforeFileCheck (t : List Event) : Bool :=
  (t.takeWhile fun e => !e.isFileCheck).any
    fun e => e.isUploadRequest || e.isDistributeRequest

/-- The `releaseName` output is set before the first event satisfying
`p` (vacuously, when no event satisfies `p`). -/
def outputSetBefore (t : List Event) (p : Event → Bool) : Bool :=
  (t.takeWhile fun e => !p e).any Event.isReleaseNameOutput

/-- Some network call happens strictly after the first distribute
request. -/
def networkAfterDistribute (t : List Event) : Bool :=
  ((t.dropWhile fun e => !e.isDistributeRequest).drop 1).any Event.isNetwork

/-- Tests whether `needle` occurs at the start of `hay`. -/
def listStartsWith : List Char → List Char → Bool
  | _, [] => true
  | [], _ :: _ => false
  | c :: cs, d :: ds => c = d && listStartsWith cs ds

/-- Tests whether `needle` occurs somewhere in `hay`. -/
def listOccurs : List Char → List Char → Bool
  | [], needle => needle.isEmpty
  | c :: cs, needle => listStartsWith (c :: cs) needle || listOccurs cs needle

/-- Substring test: `needle` occurs in `hay`. -/
def strContains (hay needle : String) : Bool :=
  listOccurs hay.data needle.data

/-- Every `core.error` log line mentioning `m` is preceded by a
`core.setSecret m` registration: scanning left to right, reaching a
`setSecret m` makes the rest compliant, while a `logError` mentioning
`m` first is a violation. -/
def loggedOnlyAfterRegistration (t : List Event) (m : String) : Bool :=
  match t with
  | [] => true
  | e :: rest =>
    match e with
    | .setSecret s => if s = m then true else loggedOnlyAfterRegistration rest m
    | .logError s => if strContains s m then false else loggedOnlyAfterRegistration rest m
    | _ => loggedOnlyAfterRegistration rest m

/-! Concrete fixtures (mirroring the repository's test fixture) -/

/-- Inputs like the ones the repository's unit tests supply. -/
def stdIn : Inputs :=
  { serviceCredentialsFileContent := "\x7b\x22project_id\x22:\x22test-project\x22\x7d"
    appId := "1:1234567890:android:abc123def456"
    file := "path/to/app.apk"
    groups := "testers"
    releaseNotes := "" }

/-- A fully successful environment: every collaborator succeeds. -/
def stdEnv : Env :=
  { parseResult := .ok { project_id := "test-project" }
    tokenResult := .ok (some "fake-access-token")
    resolvePath := fun f => "/github/workspace/" ++ f
    fileExists := fun _ => true
    uploadResult := .ok "releases/release-id"
    distributeResult := .ok ()
    summaryResult := .ok () }

/-- The error `JSON.parse` raises on malformed input. -/
def jsonSyntaxError : JsError :=
  { message := "Unexpected token o in JSON at position 1"
    stack := some "SyntaxError: Unexpected token o in JSON at position 1" }

/-- The error `axios` raises on an HTTP 400 from the distribute endpoint. -/
def http400Error : JsError :=
  { message := "Request failed with status code 400"
    stack := some "AxiosError: Request failed with status code 400" }

/-- The error `axios` raises on an HTTP 500 from the upload endpoint. -/
def http500Error : JsError :=
  { message := "Request failed with status code 500"
    stack := some "AxiosError: Request failed with status code 500" }

/-- An error raised by the job-summary write. -/
def summaryWriteError : JsError :=
  { message := "Unable to access summary file"
    stack := some "Error: Unable to access summary file" }

/-- Concrete inputs for C2: the credentials blob is not valid JSON. -/
def c2In : Inputs := { stdIn with serviceCredentialsFileContent := "not json" }

/-- Concrete environment for C2: `JSON.parse` throws. -/
def c2Env : Env := { stdEnv with parseResult := .error jsonSyntaxError }

/-- Concrete environment for C8: the exchange succeeds but the response
carries no token. -/
def c8Env : Env := { stdEnv with tokenResult := .ok none }

/-- Concrete inputs for C5: two groups with a space after the comma. -/
def c5In : Inputs := { stdIn with groups := "testers, qa" }

/-- Concrete inputs for the C4 counterexample: no groups requested. -/
def c4xIn : Inputs := { stdIn with groups := "" }

/-- Concrete environment for the C4 counterexample: everything
succeeds except the job-summary write. -/
def c4xEnv : Env := { stdEnv with summaryResult := .error summaryWriteError }

/-- Concrete inputs for the amended C4: no groups, everything else as
in the test fixture. -/
def c4In : Inputs := { stdIn with groups := "" }

/-- Environment in which everything succeeds except the distribute
request, which the endpoint rejects with HTTP 400. -/
def distributeFailEnv : Env := { stdEnv with distributeResult := .error http400Error }

/-- Environment in which everything succeeds except the upload request,
which fails with HTTP 500. -/
def uploadFailEnv : Env := { stdEnv with uploadResult := .error http500Error }

/-- The events `runBody` emits for `c2In`/`c2Env` (malformed JSON)
before the top-level catch runs. -/
def c2Trace : List Event :=
  [Event.info "🛠️ Starting Firebase distribution",
   Event.debug "App ID: 1:1234567890:android:abc123def456",
   Event.debug "File to distribute: path/to/app.apk",
   Event.debug "Groups: testers",
   Event.info "🔧 Parsing Service Account Credentials",
   Event.logError "❌ Failed to parse serviceCredentialsFileContent. Ensure it is valid JSON.",
   Event.setFailed "Failed to parse serviceCredentialsFileContent. Ensure it is valid JSON."]

/-! Helper lemmas about the catch block and trace observations -/

lemma catchEvents_any_isSetFailed (e : JsError) :
    (catchEvents e).any Event.isSetFailed = true := by
  rcases e with ⟨m, stk⟩
  rcases stk with _ | st <;>
    simp [catchEvents, Event.isSetFailed, List.any_append]

lemma catchEvents_any_isNetwork (e : JsError) :
    (catchEvents e).any Event.isNetwork = false := by
  rcases e with ⟨m, stk⟩
  rcases stk with _ | st <;>
    simp [catchEvents, Event.isNetwork, List.any_append]

lemma catchEvents_any_isUploadRequest (e : JsError) :
    (catchEvents e).any Event.isUploadRequest = false := by
  rcases e with ⟨m, stk⟩
  rcases stk with _ | st <;>
    simp [catchEvents, Event.isUploadRequest, List.any_append]

lemma catchEvents_any_isDistributeRequest (e : JsError) :
    (catchEvents e).any Event.isDistributeRequest = false := by
  rcases e with ⟨m, stk⟩
  rcases stk with _ | st <;>
    simp [catchEvents, Event.isDistributeRequest, List.any_append]

lemma catchEvents_countP_isFileCheck (e : JsError) :
    (catchEvents e).countP Event.isFileCheck = 0 := by
  rcases e with ⟨m, stk⟩
  rcases stk with _ | st <;>
    simp [catchEvents, Event.isFileCheck, List.countP_append]

lemma catchEvents_countP_isUploadRequest (e : JsError) :
    (catchEvents e).countP Event.isUploadRequest = 0 := by
  rcases e with ⟨m, stk⟩
  rcases stk with _ | st <;>
    simp [catchEvents, Event.isUploadRequest, List.countP_append]

lemma catchEvents_countP_isDistributeRequest (e : JsError) :
    (catchEvents e).countP Event.isDistributeRequest = 0 := by
  rcases e with ⟨m, stk⟩
  rcases stk with _ | st <;>
    simp [catchEvents, Event.isDistributeRequest, List.countP_append]

lemma catchEvents_filterMap_outputProj (e : JsError) (key : String) :
    (catchEvents e).filterMap (outputProj key) = [] := by
  rcases e with ⟨m, stk⟩
  rcases stk with _ | st <;>
    simp [catchEvents, outputProj, List.filterMap_append]

lemma netDistribute_not_mem_catchEvents (e : JsError) (url : String) (body : DistributeBody) :
    Event.netDistribute url body ∉ catchEvents e := by
  rcases e with ⟨m, stk⟩
  rcases stk with _ | st <;> simp [catchEvents]

/-- Inversion: a distribute request in `run`'s trace can only come from
`distributeRelease` (`src/index.js` lines 200-226), called at line 47
under `if (groups)`; so `groups` was non-empty and the body carries the
split-and-trimmed group names and the defaulted release notes. -/
lemma netDistribute_mem_run (inputs : Inputs) (env : Env) (url : String) (body : DistributeBody)
    (h : Event.netDistribute url body ∈ run inputs env) :
    inputs.groups ≠ "" ∧
    body.groupNames = (jsSplitComma inputs.groups).map (fun group => jsTrim group) ∧
    body.releaseNotesText =
      (if inputs.releaseNotes = "" then "Distributed via GitHub Actions"
       else inputs.releaseNotes) := by
  obtain ⟨pr, tr, rp, fe, ur, dr, sr⟩ := env
  by_cases h1 : inputs.serviceCredentialsFileContent = ""
  · simp [run, runBody, h1, netDistribute_not_mem_catchEvents] at h
  by_cases h2 : inputs.appId = ""
  · simp [run, runBody, h1, h2, netDistribute_not_mem_catchEvents] at h
  by_cases h3 : inputs.file = ""
  · simp [run, runBody, h1, h2, h3, netDistribute_not_mem_catchEvents] at h
  rcases pr with epr | k
  · simp [run, runBody, h1, h2, h3, parseServiceAccountCredentials,
      netDistribute_not_mem_catchEvents] at h
  rcases tr with etr | tokOpt
  · simp [run, runBody, h1, h2, h3, parseServiceAccountCredentials,
      initializeGoogleAuthentication, netDistribute_not_mem_catchEvents] at h
  rcases tokOpt with _ | tok
  · simp [run, runBody, h1, h2, h3, parseServiceAccountCredentials,
      initializeGoogleAuthentication, netDistribute_not_mem_catchEvents] at h
  by_cases htok : tok = ""
  · simp [run, runBody, h1, h2, h3, parseServiceAccountCredentials,
      initializeGoogleAuthentication, htok, netDistribute_not_mem_catchEvents] at h
  cases hfe : fe (rp inputs.file)
  · simp [run, runBody, h1, h2, h3, parseServiceAccountCredentials,
      initializeGoogleAuthentication, htok, resolveAndVerifyFilePath, hfe,
      netDistribute_not_mem_catchEvents] at h
  rcases ur with eur | releaseId
  · simp [run, runBody, h1, h2, h3, parseServiceAccountCredentials,
      initializeGoogleAuthentication, htok, resolveAndVerifyFilePath, hfe,
      uploadFile, netDistribute_not_mem_catchEvents] at h
  by_cases hg : inputs.groups = ""
  · rcases sr with esr | _ <;>
      simp [run, runBody, h1, h2, h3, parseServiceAccountCredentials,
        initializeGoogleAuthentication, htok, resolveAndVerifyFilePath, hfe,
        uploadFile, hg, createJobSummary, netDistribute_not_mem_catchEvents] at h
  · refine ⟨hg, ?_⟩
    rcases dr with edr | _
    · simp [run, runBody, h1, h2, h3, parseServiceAccountCredentials,
        initializeGoogleAuthentication, htok, resolveAndVerifyFilePath, hfe,
        uploadFile, hg, distributeRelease, netDistribute_not_mem_catchEvents] at h
      obtain ⟨hurl, hbody⟩ := h
      subst hbody
      exact ⟨rfl, rfl⟩
    · rcases sr with esr | _ <;>
        simp [run, runBody, h1, h2, h3, parseServiceAccountCredentials,
          initializeGoogleAuthentication, htok, resolveAndVerifyFilePath, hfe,
          uploadFile, hg, distributeRelease, createJobSummary,
          netDistribute_not_mem_catchEvents] at h <;>
      · obtain ⟨hurl, hbody⟩ := h
        subst hbody
        exact ⟨rfl, rfl⟩

/-! C2: malformed credentials fail before any network call -/

/-- C2. For every invocation whose `serviceCredentialsFileContent`
input is not valid JSON (`JSON.parse` throws), the credential parser
fails and no network call is ever made: in particular neither the
authenticator's token exchange nor the upload request is issued. -/
theorem c2_parse_failure_before_network (inputs : Inputs) (env : Env) (e : JsError)
    (h : env.parseResult = .error e) :
    (run inputs env).any Event.isNetwork = false ∧ failed (run inputs env) = true := by
  by_cases h1 : inputs.serviceCredentialsFileContent = "" <;>
  by_cases h2 : inputs.appId = "" <;>
  by_cases h3 : inputs.file = "" <;>
    simp [run, runBody, parseServiceAccountCredentials, h, h1, h2, h3, failed,
      List.any_append, Event.isNetwork, Event.isSetFailed,
      catchEvents_any_isNetwork, catchEvents_any_isSetFailed]

/-- Witness for C2 at a concrete malformed-JSON invocation. -/
theorem c2_parse_failure_before_network_witness :
    c2Env.parseResult = Except.error jsonSyntaxError ∧
    ((run c2In c2Env).any Event.isNetwork = false ∧ failed (run c2In c2Env) = true) :=
  ⟨rfl, c2_parse_failure_before_network c2In c2Env jsonSyntaxError rfl⟩

/-! C8: an empty or missing access token fails explicitly -/

/-- C8. When the token exchange succeeds but returns an empty or
missing token, the authenticator fails explicitly: the invocation is
marked failed with the dedicated "Failed to obtain access token."
status, and the falsy token is never passed downstream — the uploader
is never invoked (no upload request is made). -/
theorem c8_empty_token_fails_explicitly (inputs : Inputs) (env : Env)
    (k : ServiceAccountKey) (tokOpt : Option String)
    (h1 : inputs.serviceCredentialsFileContent ≠ "") (h2 : inputs.appId ≠ "")
    (h3 : inputs.file ≠ "")
    (hp : env.parseResult = .ok k)
    (ht : env.tokenResult = .ok tokOpt)
    (hempty : tokOpt = none ∨ tokOpt = some "") :
    failed (run inputs env) = true ∧
    (run inputs env).any Event.isUploadRequest = false ∧
    Event.setFailed "Failed to obtain access token." ∈ run inputs env := by
  rcases hempty with he | he <;> subst he <;>
    simp [run, runBody, parseServiceAccountCredentials, hp,
      initializeGoogleAuthentication, ht, h1, h2, h3, failed,
      List.any_append, Event.isSetFailed, Event.isUploadRequest,
      catchEvents_any_isSetFailed, catchEvents_any_isUploadRequest]

/-- Witness for C8 at a concrete missing-token invocation. -/
theorem c8_empty_token_fails_explicitly_witness :
    stdIn.serviceCredentialsFileContent ≠ "" ∧ stdIn.appId ≠ "" ∧ stdIn.file ≠ "" ∧
    c8Env.parseResult = Except.ok { project_id := "test-project" } ∧
    c8Env.tokenResult = Except.ok none ∧
    (failed (run stdIn c8Env) = true ∧
     (run stdIn c8Env).any Event.isUploadRequest = false ∧
     Event.setFailed "Failed to obtain access token." ∈ run stdIn c8Env) :=
  ⟨by decide, by decide, by decide, rfl, rfl,
   c8_empty_token_fails_explicitly stdIn c8Env { project_id := "test-project" } none
     (by decide) (by decide) (by decide) rfl rfl (Or.inl rfl)⟩

/-! C5: group names are split on commas and trimmed -/

/-- C5. Every distribute request an invocation issues carries a
`groupNames` array obtained by splitting the `groups` input on commas
and trimming whitespace around each name; in particular
`"testers, qa"` normalizes to `["testers", "qa"]`, not
`["testers", " qa"]`. -/
theorem c5_group_names_split_and_trimmed (inputs : Inputs) (env : Env)
    (url : String) (body : DistributeBody)
    (h : Event.netDistribute url body ∈ run inputs env) :
    body.groupNames = (jsSplitComma inputs.groups).map (fun group => jsTrim group) ∧
    (jsSplitComma "testers, qa").map (fun group => jsTrim group) = ["testers", "qa"] :=
  ⟨(netDistribute_mem_run inputs env url body h).2.1, by decide⟩

/-- Witness for C5: the distribute request of a concrete successful
invocation carries the trimmed names. -/
theorem c5_group_names_split_and_trimmed_witness :
    Event.netDistribute
        (distributionUrl "test-project" "1:1234567890:android:abc123def456"
          "releases/release-id")
        { groupNames := ["testers", "qa"],
          releaseNotesText := "Distributed via GitHub Actions" } ∈ run c5In stdEnv ∧
    (({ groupNames := ["testers", "qa"],
        releaseNotesText := "Distributed via GitHub Actions" } : DistributeBody).groupNames =
      (jsSplitComma c5In.groups).map (fun group => jsTrim group) ∧
    (jsSplitComma "testers, qa").map (fun group => jsTrim group) = ["testers", "qa"]) :=
  ⟨by decide,
   c5_group_names_split_and_trimmed c5In stdEnv
     (distributionUrl "test-project" "1:1234567890:android:abc123def456"
       "releases/release-id")
     { groupNames := ["testers", "qa"],
       releaseNotesText := "Distributed via GitHub Actions" }
     (by decide)⟩

/-! C6: absent release notes default to the fixed string -/

/-- C6. When the `releaseNotes` input is absent (the empty string)
and a distribute request is issued, the request body's
`releaseNotes.text` is the fixed default `"Distributed via GitHub
Actions"`. -/
theorem c6_release_notes_default (inputs : Inputs) (env : Env) (url : String)
    (body : DistributeBody) (hnotes : inputs.releaseNotes = "")
    (h : Event.netDistribute url body ∈ run inputs env) :
    body.releaseNotesText = "Distributed via GitHub Actions" := by
  have hb := (netDistribute_mem_run inputs env url body h).2.2
  rw [hnotes] at hb
  simpa using hb

/-- Witness for C6: a concrete invocation with no release notes
distributes with the default text. -/
theorem c6_release_notes_default_witness :
    stdIn.releaseNotes = "" ∧
    Event.netDistribute
        (distributionUrl "test-project" "1:1234567890:android:abc123def456"
          "releases/release-id")
        { groupNames := ["testers"],
          releaseNotesText := "Distributed via GitHub Actions" } ∈ run stdIn stdEnv ∧
    ({ groupNames := ["testers"],
       releaseNotesText := "Distributed via GitHub Actions" } : DistributeBody).releaseNotesText =
      "Distributed via GitHub Actions" :=
  ⟨rfl, by decide,
   c6_release_notes_default stdIn stdEnv
     (distributionUrl "test-project" "1:1234567890:android:abc123def456"
       "releases/release-id")
     { groupNames := ["testers"],
       releaseNotesText := "Distributed via GitHub Actions" }
     rfl (by decide)⟩

/-! C4: empty groups skip distribution -/

/-- C4, counterexample. With `groups = ""` the distributor is
indeed never invoked, but the invocation does not "succeed purely on
upload success": here the upload succeeds, no distribute request is
made, and the invocation still fails because the job-summary write
fails. -/
theorem c4_counterexample :
    c4xIn.groups = "" ∧
    c4xEnv.uploadResult = Except.ok "releases/release-id" ∧
    (run c4xIn c4xEnv).any Event.isDistributeRequest = false ∧
    failed (run c4xIn c4xEnv) = true := by
  refine ⟨rfl, rfl, ?_, ?_⟩ <;> decide

/-- C4, amended. For every invocation with an empty or absent
`groups` input, the distributor is never invoked (no distribute
request is sent); and the invocation succeeds on upload success
provided the job-summary step also succeeds. -/
theorem c4_empty_groups_skip_distribution (inputs : Inputs) (env : Env)
    (hg : inputs.groups = "") :
    (run inputs env).any Event.isDistributeRequest = false ∧
    (∀ k tok r, inputs.serviceCredentialsFileContent ≠ "" → inputs.appId ≠ "" →
      inputs.file ≠ "" → env.parseResult = .ok k →
      env.tokenResult = .ok (some tok) → tok ≠ "" →
      env.fileExists (env.resolvePath inputs.file) = true →
      env.uploadResult = .ok r → env.summaryResult = .ok () →
      failed (run inputs env) = false) := by
  constructor
  · rw [List.any_eq_false]
    intro x hx hpx
    cases x <;> simp [Event.isDistributeRequest] at hpx
    exact (netDistribute_mem_run inputs env _ _ hx).1 hg
  · intro k tok r h1 h2 h3 hp ht htok hfe hu hs
    simp [run, runBody, parseServiceAccountCredentials, hp,
      initializeGoogleAuthentication, ht, htok, resolveAndVerifyFilePath, hfe,
      uploadFile, hu, hg, createJobSummary, hs, h1, h2, h3, failed,
      Event.isSetFailed]

/-- Witness for the amended C4: a concrete no-groups invocation skips
distribution and succeeds. -/
theorem c4_empty_groups_skip_distribution_witness :
    c4In.groups = "" ∧
    (run c4In stdEnv).any Event.isDistributeRequest = false ∧
    failed (run c4In stdEnv) = false :=
  have h := c4_empty_groups_skip_distribution c4In stdEnv rfl
  ⟨rfl, h.1,
   h.2 { project_id := "test-project" } "fake-access-token" "releases/release-id"
     (by decide) (by decide) (by decide) rfl rfl (by decide) rfl rfl rfl⟩

/-! C1: a successful upload response sets the releaseName output -/

/-- C1, counterexample. An invocation whose upload endpoint
responds successfully with `{ name: "releases/release-id" }` but whose
distribute endpoint rejects: the `releaseName` output is set, yet the
invocation does signal failure, so "does not signal failure" does not
hold for every such invocation. -/
theorem c1_counterexample :
    distributeFailEnv.uploadResult = Except.ok "releases/release-id" ∧
    (run stdIn distributeFailEnv).any Event.isUploadRequest = true ∧
    outputValue (run stdIn distributeFailEnv) "releaseName" = some "releases/release-id" ∧
    failed (run stdIn distributeFailEnv) = true := by
  refine ⟨rfl, ?_, ?_, ?_⟩ <;> decide

/-- C1, amended. For every invocation that reaches the upload and
whose upload endpoint responds successfully with
`{ name: "releases/release-id" }`, the `releaseName` output is set to
exactly `"releases/release-id"`; and the invocation does not signal
failure provided the distribution (when groups are requested) and the
job summary also succeed. -/
theorem c1_upload_success_sets_output (inputs : Inputs) (env : Env)
    (k : ServiceAccountKey) (tok : String)
    (h1 : inputs.serviceCredentialsFileContent ≠ "") (h2 : inputs.appId ≠ "")
    (h3 : inputs.file ≠ "")
    (hp : env.parseResult = .ok k)
    (ht : env.tokenResult = .ok (some tok)) (htok : tok ≠ "")
    (hfe : env.fileExists (env.resolvePath inputs.file) = true)
    (hu : env.uploadResult = .ok "releases/release-id") :
    outputValue (run inputs env) "releaseName" = some "releases/release-id" ∧
    ((inputs.groups = "" ∨ env.distributeResult = .ok ()) →
      env.summaryResult = .ok () → failed (run inputs env) = false) := by
  constructor
  · by_cases hg : inputs.groups = ""
    · rcases hsr : env.summaryResult with esr | u <;>
        simp [run, runBody, parseServiceAccountCredentials, hp,
          initializeGoogleAuthentication, ht, htok, resolveAndVerifyFilePath, hfe,
          uploadFile, hu, hg, createJobSummary, hsr, h1, h2, h3,
          outputValue, outputProj, List.filterMap_append,
          catchEvents_filterMap_outputProj]
    · rcases hdr : env.distributeResult with edr | u
      · simp [run, runBody, parseServiceAccountCredentials, hp,
          initializeGoogleAuthentication, ht, htok, resolveAndVerifyFilePath, hfe,
          uploadFile, hu, hg, distributeRelease, hdr, h1, h2, h3,
          outputValue, outputProj, List.filterMap_append,
          catchEvents_filterMap_outputProj]
      · rcases hsr : env.summaryResult with esr | v <;>
          simp [run, runBody, parseServiceAccountCredentials, hp,
            initializeGoogleAuthentication, ht, htok, resolveAndVerifyFilePath, hfe,
            uploadFile, hu, hg, distributeRelease, hdr, createJobSummary, hsr,
            h1, h2, h3, outputValue, outputProj, List.filterMap_append,
            catchEvents_filterMap_outputProj]
  · intro hor hsum
    rcases hor with hg | hdr
    · simp [run, runBody, parseServiceAccountCredentials, hp,
        initializeGoogleAuthentication, ht, htok, resolveAndVerifyFilePath, hfe,
        uploadFile, hu, hg, createJobSummary, hsum, h1, h2, h3, failed,
        Event.isSetFailed]
    · by_cases hg : inputs.groups = "" <;>
        simp [run, runBody, parseServiceAccountCredentials, hp,
          initializeGoogleAuthentication, ht, htok, resolveAndVerifyFilePath, hfe,
          uploadFile, hu, hg, distributeRelease, hdr, createJobSummary, hsum,
          h1, h2, h3, failed, Event.isSetFailed]

/-- Witness for the amended C1: the fully successful concrete
invocation sets the output and does not fail. -/
theorem c1_upload_success_sets_output_witness :
    stdIn.serviceCredentialsFileContent ≠ "" ∧
    stdEnv.uploadResult = Except.ok "releases/release-id" ∧
    (outputValue (run stdIn stdEnv) "releaseName" = some "releases/release-id" ∧
     failed (run stdIn stdEnv) = false) :=
  have h := c1_upload_success_sets_output stdIn stdEnv
    { project_id := "test-project" } "fake-access-token"
    (by decide) (by decide) (by decide) rfl rfl (by decide) rfl rfl
  ⟨by decide, rfl, h.1, h.2 (Or.inr rfl) rfl⟩

/-! C10: the output is set during the upload step itself -/

/-- C10. In every invocation whose upload step succeeds, the
`releaseName` output is set during the upload step itself — before any
distribute request and before the job-summary write — and its final
value is the release identifier regardless of how the rest of the
invocation ends. -/
theorem c10_output_set_during_upload_step (inputs : Inputs) (env : Env)
    (k : ServiceAccountKey) (tok r : String)
    (h1 : inputs.serviceCredentialsFileContent ≠ "") (h2 : inputs.appId ≠ "")
    (h3 : inputs.file ≠ "")
    (hp : env.parseResult = .ok k)
    (ht : env.tokenResult = .ok (some tok)) (htok : tok ≠ "")
    (hfe : env.fileExists (env.resolvePath inputs.file) = true)
    (hu : env.uploadResult = .ok r) :
    outputValue (run inputs env) "releaseName" = some r ∧
    outputSetBefore (run inputs env) Event.isDistributeRequest = true ∧
    outputSetBefore (run inputs env) Event.isSummaryWrite = true := by
  by_cases hg : inputs.groups = ""
  · rcases hsr : env.summaryResult with esr | u <;>
      simp [run, runBody, parseServiceAccountCredentials, hp,
        initializeGoogleAuthentication, ht, htok, resolveAndVerifyFilePath, hfe,
        uploadFile, hu, hg, createJobSummary, hsr, h1, h2, h3,
        outputValue, outputProj, List.filterMap_append, catchEvents_filterMap_outputProj,
        outputSetBefore, List.takeWhile_cons, Event.isReleaseNameOutput,
        Event.isDistributeRequest, Event.isSummaryWrite]
  · rcases hdr : env.distributeResult with edr | u
    · simp [run, runBody, parseServiceAccountCredentials, hp,
        initializeGoogleAuthentication, ht, htok, resolveAndVerifyFilePath, hfe,
        uploadFile, hu, hg, distributeRelease, hdr, h1, h2, h3,
        outputValue, outputProj, List.filterMap_append, catchEvents_filterMap_outputProj,
        outputSetBefore, List.takeWhile_cons, Event.isReleaseNameOutput,
        Event.isDistributeRequest, Event.isSummaryWrite]
    · rcases hsr : env.summaryResult with esr | v <;>
        simp [run, runBody, parseServiceAccountCredentials, hp,
          initializeGoogleAuthentication, ht, htok, resolveAndVerifyFilePath, hfe,
          uploadFile, hu, hg, distributeRelease, hdr, createJobSummary, hsr,
          h1, h2, h3, outputValue, outputProj, List.filterMap_append,
          catchEvents_filterMap_outputProj, outputSetBefore, List.takeWhile_cons,
          Event.isReleaseNameOutput, Event.isDistributeRequest, Event.isSummaryWrite]

/-- Witness for C10: with a rejecting distribute endpoint the
invocation fails, yet the output was set during the upload step and
keeps its value. -/
theorem c10_output_set_during_upload_step_witness :
    distributeFailEnv.uploadResult = Except.ok "releases/release-id" ∧
    failed (run stdIn distributeFailEnv) = true ∧
    (outputValue (run stdIn distributeFailEnv) "releaseName" = some "releases/release-id" ∧
     outputSetBefore (run stdIn distributeFailEnv) Event.isDistributeRequest = true ∧
     outputSetBefore (run stdIn distributeFailEnv) Event.isSummaryWrite = true) :=
  ⟨rfl, by decide,
   c10_output_set_during_upload_step stdIn distributeFailEnv
     { project_id := "test-project" } "fake-access-token" "releases/release-id"
     (by decide) (by decide) (by decide) rfl rfl (by decide) rfl rfl⟩

/-! C3: when the file-existence check happens -/

/-- C3, counterexample. In a fully successful concrete invocation
the artifact's existence is checked exactly once, but a network call —
the authenticator's token exchange — has already been made before the
check, so the check does not precede every network call. -/
theorem c3_counterexample :
    (run stdIn stdEnv).countP Event.isFileCheck = 1 ∧
    anyNetworkBeforeFileCheck (run stdIn stdEnv) = true := by
  refine ⟨?_, ?_⟩ <;> decide

/-- C3, amended. In every invocation that reaches the file-resolution
step, the artifact file's existence is checked exactly once,
synchronously, before the upload request (and before any distribute
request) — but after the authenticator's token exchange, which is a
network call issued before the check. -/
theorem c3_file_checked_once_before_upload (inputs : Inputs) (env : Env)
    (k : ServiceAccountKey) (tok : String)
    (h1 : inputs.serviceCredentialsFileContent ≠ "") (h2 : inputs.appId ≠ "")
    (h3 : inputs.file ≠ "")
    (hp : env.parseResult = .ok k)
    (ht : env.tokenResult = .ok (some tok)) (htok : tok ≠ "") :
    (run inputs env).countP Event.isFileCheck = 1 ∧
    anyHttpBeforeFileCheck (run inputs env) = false ∧
    anyNetworkBeforeFileCheck (run inputs env) = true := by
  cases hfe : env.fileExists (env.resolvePath inputs.file)
  · simp [run, runBody, parseServiceAccountCredentials, hp,
      initializeGoogleAuthentication, ht, htok, resolveAndVerifyFilePath, hfe,
      h1, h2, h3, List.countP_append, List.countP_cons, catchEvents_countP_isFileCheck,
      anyHttpBeforeFileCheck, anyNetworkBeforeFileCheck, List.takeWhile_cons,
      Event.isFileCheck, Event.isUploadRequest, Event.isDistributeRequest, Event.isNetwork]
  · rcases hur : env.uploadResult with eur | r
    · simp [run, runBody, parseServiceAccountCredentials, hp,
        initializeGoogleAuthentication, ht, htok, resolveAndVerifyFilePath, hfe,
        uploadFile, hur, h1, h2, h3, List.countP_append, List.countP_cons,
        catchEvents_countP_isFileCheck, anyHttpBeforeFileCheck,
        anyNetworkBeforeFileCheck, List.takeWhile_cons,
        Event.isFileCheck, Event.isUploadRequest, Event.isDistributeRequest, Event.isNetwork]
    · by_cases hg : inputs.groups = ""
      · rcases hsr : env.summaryResult with esr | u <;>
          simp [run, runBody, parseServiceAccountCredentials, hp,
            initializeGoogleAuthentication, ht, htok, resolveAndVerifyFilePath, hfe,
            uploadFile, hur, hg, createJobSummary, hsr, h1, h2, h3,
            List.countP_append, List.countP_cons, catchEvents_countP_isFileCheck,
            anyHttpBeforeFileCheck, anyNetworkBeforeFileCheck, List.takeWhile_cons,
            Event.isFileCheck, Event.isUploadRequest, Event.isDistributeRequest,
            Event.isNetwork]
      · rcases hdr : env.distributeResult with edr | v
        · simp [run, runBody, parseServiceAccountCredentials, hp,
            initializeGoogleAuthentication, ht, htok, resolveAndVerifyFilePath, hfe,
            uploadFile, hur, hg, distributeRelease, hdr, h1, h2, h3,
            List.countP_append, List.countP_cons, catchEvents_countP_isFileCheck,
            anyHttpBeforeFileCheck, anyNetworkBeforeFileCheck, List.takeWhile_cons,
            Event.isFileCheck, Event.isUploadRequest, Event.isDistributeRequest,
            Event.isNetwork]
        · rcases hsr : env.summaryResult with esr | w <;>
            simp [run, runBody, parseServiceAccountCredentials, hp,
              initializeGoogleAuthentication, ht, htok, resolveAndVerifyFilePath, hfe,
              uploadFile, hur, hg, distributeRelease, hdr, createJobSummary, hsr,
              h1, h2, h3, List.countP_append, List.countP_cons,
              catchEvents_countP_isFileCheck, anyHttpBeforeFileCheck,
              anyNetworkBeforeFileCheck, List.takeWhile_cons,
              Event.isFileCheck, Event.isUploadRequest, Event.isDistributeRequest,
              Event.isNetwork]

/-- Witness for the amended C3 at the concrete successful invocation. -/
theorem c3_file_checked_once_before_upload_witness :
    stdEnv.tokenResult = Except.ok (some "fake-access-token") ∧
    ((run stdIn stdEnv).countP Event.isFileCheck = 1 ∧
     anyHttpBeforeFileCheck (run stdIn stdEnv) = false ∧
     anyNetworkBeforeFileCheck (run stdIn stdEnv) = true) :=
  ⟨rfl,
   c3_file_checked_once_before_upload stdIn stdEnv
     { project_id := "test-project" } "fake-access-token"
     (by decide) (by decide) (by decide) rfl rfl (by decide)⟩

/-! C7: a rejected distribution fails the run without rollback -/

/-- C7. For every invocation with `groups = "testers"` whose upload
succeeds but whose distribute endpoint rejects, the invocation signals
failure; the upload was issued exactly once (no retry), the distribute
request exactly once (no retry), and no network call at all happens
after the distribute request — in particular the already-created
release is not rolled back. -/
theorem c7_distribute_rejection_fails_without_rollback (inputs : Inputs) (env : Env)
    (k : ServiceAccountKey) (tok r : String) (d : JsError)
    (hg : inputs.groups = "testers")
    (h1 : inputs.serviceCredentialsFileContent ≠ "") (h2 : inputs.appId ≠ "")
    (h3 : inputs.file ≠ "")
    (hp : env.parseResult = .ok k)
    (ht : env.tokenResult = .ok (some tok)) (htok : tok ≠ "")
    (hfe : env.fileExists (env.resolvePath inputs.file) = true)
    (hu : env.uploadResult = .ok r)
    (hd : env.distributeResult = .error d) :
    failed (run inputs env) = true ∧
    (run inputs env).countP Event.isUploadRequest = 1 ∧
    (run inputs env).countP Event.isDistributeRequest = 1 ∧
    networkAfterDistribute (run inputs env) = false := by
  simp [run, runBody, parseServiceAccountCredentials, hp,
    initializeGoogleAuthentication, ht, htok, resolveAndVerifyFilePath, hfe,
    uploadFile, hu, hg, distributeRelease, hd, h1, h2, h3, failed,
    List.any_append, Event.isSetFailed, catchEvents_any_isSetFailed,
    List.countP_append, List.countP_cons, catchEvents_countP_isUploadRequest,
    catchEvents_countP_isDistributeRequest, networkAfterDistribute,
    List.dropWhile_cons, catchEvents_any_isNetwork,
    Event.isUploadRequest, Event.isDistributeRequest, Event.isNetwork]

/-- Witness for C7: the concrete invocation whose distribute endpoint
answers HTTP 400. -/
theorem c7_distribute_rejection_fails_without_rollback_witness :
    stdIn.groups = "testers" ∧
    distributeFailEnv.distributeResult = Except.error http400Error ∧
    (failed (run stdIn distributeFailEnv) = true ∧
     (run stdIn distributeFailEnv).countP Event.isUploadRequest = 1 ∧
     (run stdIn distributeFailEnv).countP Event.isDistributeRequest = 1 ∧
     networkAfterDistribute (run stdIn distributeFailEnv) = false) :=
  ⟨rfl, rfl,
   c7_distribute_rejection_fails_without_rollback stdIn distributeFailEnv
     { project_id := "test-project" } "fake-access-token" "releases/release-id"
     http400Error rfl (by decide) (by decide) (by decide) rfl rfl (by decide) rfl rfl rfl⟩

/-! C9: when error text is registered for redaction -/

/-- C9, counterexample. A failing invocation (the upload endpoint
answers HTTP 500) in which the failing error's message is written to
the log by the upload step's own handler (`core.error` at
`src/index.js` line 184) before any `core.setSecret` registration —
the top-level catch registers it only afterwards. -/
theorem c9_counterexample :
    uploadFailEnv.uploadResult = Except.error http500Error ∧
    failed (run stdIn uploadFailEnv) = true ∧
    loggedOnlyAfterRegistration (run stdIn uploadFailEnv)
      "Request failed with status code 500" = false := by
  refine ⟨rfl, ?_, ?_⟩ <;> decide

/-- C9, amended. For every failing invocation, the top-level
handler registers the failing error's message for redaction before the
handler's own log write and failure report; step-level handlers,
however, may already have written the message to the log before that
registration. -/
theorem c9_registration_before_final_log (inputs : Inputs) (env : Env)
    (e : JsError) (t : List Event)
    (h : runBody inputs env = (.error e, t)) (hm : e.message ≠ "") :
    loggedOnlyAfterRegistration (List.drop t.length (run inputs env)) e.message = true ∧
    failed (run inputs env) = true := by
  constructor
  · simp only [run, h]
    rw [List.drop_left]
    simp [catchEvents, hm, loggedOnlyAfterRegistration]
  · simp [run, h, failed, List.any_append, catchEvents_any_isSetFailed]

/-- Witness for the amended C9 at the concrete malformed-JSON
invocation: the top-level handler registers the message first. -/
theorem c9_registration_before_final_log_witness :
    runBody c2In c2Env = (Except.error jsonSyntaxError, c2Trace) ∧
    jsonSyntaxError.message ≠ "" ∧
    (loggedOnlyAfterRegistration (List.drop c2Trace.length (run c2In c2Env))
        jsonSyntaxError.message = true ∧
     failed (run c2In c2Env) = true) :=
  ⟨rfl, by decide,
   c9_registration_before_final_log c2In c2Env jsonSyntaxError c2Trace
     rfl (by decide)⟩

end FirebaseDist
